import Mathlib

/-!
Verification of the trip-planner RAG pipeline
(`single_trip_agent.py`, `rag_processor.py`).

The Python source is shallowly embedded: pure helpers become Lean
functions; external effects (the FAISS similarity search, the Gemini
HTTP call, the JSON parser, the filesystem) become explicit parameters
or oracle values, and the sequence of performed I/O steps is returned
alongside the result so that "before any I/O" and "no retry" properties
are statable.  Python exceptions that the source does not catch are
modelled by an explicit `fault` constructor.
-/

namespace TripPlanner

/-! ### Dates: embedding of `datetime.strptime(_, "%Y-%m-%d")`,
`timedelta` arithmetic and `strftime("%b %d, %Y")`. -/

/-- A proleptic-Gregorian calendar date, as held by `datetime.datetime`
(only the date components are relevant to the program). -/
structure PyDate where
  year : Nat
  month : Nat
  day : Nat
deriving DecidableEq, Repr

/-- Gregorian leap-year rule (as used by `datetime`). -/
def isLeap (y : Nat) : Bool :=
  y % 4 = 0 && (y % 100 ≠ 0 || y % 400 = 0)

/-- Number of days in a month of a given year (as used by `datetime`). -/
def daysInMonth (y m : Nat) : Nat :=
  if m = 2 then (if isLeap y then 29 else 28)
  else if m = 4 ∨ m = 6 ∨ m = 9 ∨ m = 11 then 30
  else 31

/-- Split a character list at every occurrence of `sep` (mirrors
`str.split(sep)` for a one-character separator: `""` yields `[""]`,
adjacent separators yield empty fields). -/
def splitOnChar (sep : Char) : List Char → List (List Char)
  | [] => [[]]
  | c :: rest =>
    if c = sep then [] :: splitOnChar sep rest
    else
      match splitOnChar sep rest with
      | h :: t => (c :: h) :: t
      | [] => [[c]]

/-- `True` iff the character list is non-empty and all-digits. -/
def allDigits (l : List Char) : Bool :=
  !l.isEmpty && l.all Char.isDigit

/-- Decimal value of a digit list. -/
def digitsToNat (l : List Char) : Nat :=
  l.foldl (fun acc c => acc * 10 + (c.toNat - 48)) 0

/-- Embedding of `datetime.strptime(s, "%Y-%m-%d")`: `%Y` matches exactly
four digits, `%m` and `%d` match one or two digits, and the resulting
components must form a valid calendar date (CPython's `_strptime` regexes
plus the `datetime` constructor's range checks); on any mismatch the
`ValueError` is caught by the source and surfaced as an error return,
which we model by `none`. -/
def parseDate (s : String) : Option PyDate :=
  match splitOnChar '-' s.toList with
  | [ys, ms, ds] =>
    if allDigits ys && ys.length = 4
        && allDigits ms && (ms.length = 1 || ms.length = 2)
        && allDigits ds && (ds.length = 1 || ds.length = 2) then
      let y := digitsToNat ys
      let m := digitsToNat ms
      let d := digitsToNat ds
      if 1 ≤ y ∧ 1 ≤ m ∧ m ≤ 12 ∧ 1 ≤ d ∧ d ≤ daysInMonth y m then
        some ⟨y, m, d⟩
      else none
    else none
  | _ => none

/-- Days strictly before January 1 of month `m` in year `y`
(sum of the month lengths of months `1 .. m-1`). -/
def daysBeforeMonth (y m : Nat) : Nat :=
  (List.range (m - 1)).foldl (fun acc k => acc + daysInMonth y (k + 1)) 0

/-- Embedding of `datetime.date.toordinal`: day count with
0001-01-01 ↦ 1.  `(b - a).days` in the source equals
`toOrdinal b - toOrdinal a` (as integers). -/
def toOrdinal (d : PyDate) : Nat :=
  (d.year - 1) * 365 + (d.year - 1) / 4 - (d.year - 1) / 100 + (d.year - 1) / 400
    + daysBeforeMonth d.year d.month + d.day

/-- Calendar successor of a date. -/
def nextDay (d : PyDate) : PyDate :=
  if d.day < daysInMonth d.year d.month then { d with day := d.day + 1 }
  else if d.month < 12 then { d with month := d.month + 1, day := 1 }
  else ⟨d.year + 1, 1, 1⟩

/-- Embedding of `start + timedelta(days := n)` for `n ≥ 0`:
the date `n` calendar days later. -/
def addDays (d : PyDate) (n : Nat) : PyDate :=
  Nat.rec d (fun _ acc => nextDay acc) n

/-- Abbreviated month name, as produced by `%b` in the C/en locale. -/
def monthAbbr : Nat → String
  | 1 => "Jan" | 2 => "Feb" | 3 => "Mar" | 4 => "Apr"
  | 5 => "May" | 6 => "Jun" | 7 => "Jul" | 8 => "Aug"
  | 9 => "Sep" | 10 => "Oct" | 11 => "Nov" | 12 => "Dec"
  | _ => ""

/-- Zero-pad to two digits (`%d`). -/
def pad2 (n : Nat) : String :=
  if n < 10 then "0" ++ toString n else toString n

/-- Zero-pad to four digits (`%Y`). -/
def pad4 (n : Nat) : String :=
  if n < 10 then "000" ++ toString n
  else if n < 100 then "00" ++ toString n
  else if n < 1000 then "0" ++ toString n
  else toString n

/-- Embedding of `strftime("%b %d, %Y")`. -/
def strftimeBdY (d : PyDate) : String :=
  monthAbbr d.month ++ " " ++ pad2 d.day ++ ", " ++ pad4 d.year

/-- `num_days = (end_date_obj - start_date_obj).days + 1` (may be ≤ 0
when the range is inverted — the source does not check the order). -/
def numDaysOf (s e : PyDate) : Int :=
  (toOrdinal e : Int) - (toOrdinal s : Int) + 1

/-- `date_list = [(start + timedelta(days=i)).strftime("%b %d, %Y")
for i in range((end - start).days + 1)]`; a non-positive bound makes
`range` empty, which `Int.toNat` reproduces. -/
def dateListOf (s e : PyDate) : List String :=
  (List.range (numDaysOf s e).toNat).map (fun i => strftimeBdY (addDays s i))

example : parseDate "2025-10-10" = some ⟨2025, 10, 10⟩ := by decide
example : parseDate "2025-13-01" = none := by decide
example : parseDate "2025-02-29" = none := by decide
example : parseDate "2024-02-29" = some ⟨2024, 2, 29⟩ := by decide
example : parseDate "25-10-10" = none := by decide
example : parseDate "2025/10/10" = none := by decide
example : parseDate "" = none := by decide
example : numDaysOf ⟨2025, 10, 10⟩ ⟨2025, 10, 15⟩ = 6 := by decide
example : numDaysOf ⟨2025, 10, 15⟩ ⟨2025, 10, 10⟩ = -4 := by decide
example : dateListOf ⟨2025, 10, 10⟩ ⟨2025, 10, 12⟩ =
    ["Oct 10, 2025", "Oct 11, 2025", "Oct 12, 2025"] := by decide
example : dateListOf ⟨2025, 10, 15⟩ ⟨2025, 10, 10⟩ = [] := by decide
example : strftimeBdY (addDays ⟨2024, 12, 31⟩ 1) = "Jan 01, 2025" := by decide

/-! ### Retrieval: embedding of `get_context_with_sources`.

The FAISS store is external state; its answer to
`similarity_search_with_relevance_scores(query, k=3)` is taken as an
oracle: `none` models `vector_db is None` (store failed to load), and
`some results` the returned `(doc, score)` list.  Scores are modelled
as rationals. -/

/-- A retrieved document: `page_content` plus its `source` metadata. -/
structure RetrievedDoc where
  page_content : String
  source : String
deriving DecidableEq, Repr

/-- `RELEVANCE_THRESHOLD = 0.4`. -/
def RELEVANCE_THRESHOLD : ℚ := 2 / 5

/-- Python `set.add`, modelled on a duplicate-free list (membership is
what the program uses; iteration order of a Python `set` is
unspecified, so we fix first-insertion order). -/
def addSource (l : List String) (s : String) : List String :=
  if s ∈ l then l else l ++ [s]

/-- Loop body of `get_context_with_sources`: a result strictly above
the threshold appends its text (plus separator) to the context and adds
its source filename to the source set. -/
def ragStep (acc : String × List String) (p : RetrievedDoc × ℚ) :
    String × List String :=
  if p.2 > RELEVANCE_THRESHOLD then
    (acc.1 ++ p.1.page_content ++ "\n\n---\n\n", addSource acc.2 p.1.source)
  else acc

/-- Embedding of `get_context_with_sources`: with no store it returns
`("", [])`; otherwise it folds `ragStep` over the search results. -/
def get_context_with_sources (db : Option (List (RetrievedDoc × ℚ))) :
    String × List String :=
  match db with
  | none => ("", [])
  | some results => results.foldl ragStep ("", [])

/-! ### Link sanitization: embedding of `sanitize_map_link`, i.e.
`re.search(r'\[.*?\]\((https?://.*?)\)', url)` followed by
`match.group(1)` on success and pass-through on failure.  The regex
is embedded directly: `.` does not match a newline, the two `.*?`
are lazy (shortest match first), and `re.search` takes the leftmost
matching start position. -/

/-- Lazy `.*?\)`: consume the shortest newline-free prefix up to a
closing parenthesis; returns the consumed prefix (the tail of capture
group 1). The first `')'` always closes, because the rest of the
pattern is empty and can never fail. -/
def lazyUntilParen : List Char → Option (List Char)
  | [] => none
  | c :: rest =>
    if c = ')' then some []
    else if c = '\n' then none
    else (lazyUntilParen rest).map (fun g => c :: g)

/-- Match `https?://.*?\)` at the start of the list; returns capture
group 1 (`https?://.*?`).  `s?` is greedy, but `'s'` and `':'` are
distinct so the choice is forced by the next character. -/
def matchUrl : List Char → Option (List Char)
  | 'h' :: 't' :: 't' :: 'p' :: 's' :: ':' :: '/' :: '/' :: rest =>
    (lazyUntilParen rest).map (fun g => 'h' :: 't' :: 't' :: 'p' :: 's' :: ':' :: '/' :: '/' :: g)
  | 'h' :: 't' :: 't' :: 'p' :: ':' :: '/' :: '/' :: rest =>
    (lazyUntilParen rest).map (fun g => 'h' :: 't' :: 't' :: 'p' :: ':' :: '/' :: '/' :: g)
  | _ => none

/-- Lazy scan after the opening `'['`: at each position first try to
match `](https?://.*?)`, else let `.*?` consume one newline-free
character and continue. -/
def scanBracketBody : List Char → Option (List Char)
  | [] => none
  | c :: rest =>
    (match c, rest with
     | ']', '(' :: r => matchUrl r
     | _, _ => none).orElse
    (fun _ => if c = '\n' then none else scanBracketBody rest)

/-- `re.search` for the pattern: try each start position left to
right; a match can only start at `'['`. -/
def searchMdLink : List Char → Option (List Char)
  | [] => none
  | c :: rest =>
    (if c = '[' then scanBracketBody rest else none).orElse
    (fun _ => searchMdLink rest)

/-- Embedding of `sanitize_map_link`: replace a markdown-wrapped link
by capture group 1 of the first match; otherwise return the input
unchanged. -/
def sanitize_map_link (url : String) : String :=
  match searchMdLink url.toList with
  | some g => String.mk g
  | none => url

example :
    sanitize_map_link "[Text](https://maps.example/x)" = "https://maps.example/x" := by decide
example :
    sanitize_map_link "https://maps.example/x" = "https://maps.example/x" := by decide
example :
    sanitize_map_link "see [here](http://a.b/c) now" = "http://a.b/c" := by decide
example : sanitize_map_link "[x](ftp://a)" = "[x](ftp://a)" := by decide

/-! ### The trip-plan JSON shape.

`json.loads` of a schema-constrained response yields a dict; the fields
the program reads or writes are modelled as `Option`s (a missing key is
`none`), everything else is carried verbatim. -/

/-- A hotel entry (`name`, `description`, `price_range`, `map_link`). -/
structure Hotel where
  name : String
  description : String
  price_range : String
  map_link : Option String
deriving DecidableEq, Repr

/-- A restaurant entry. -/
structure Restaurant where
  name : String
  cuisine : String
  recommendation_reason : String
  map_link : Option String
deriving DecidableEq, Repr

/-- An itinerary activity. -/
structure Activity where
  time : Option String
  name : String
  description : String
  map_link : Option String
deriving DecidableEq, Repr

/-- One itinerary day as produced by the model (`day`, `date`,
`activities`; `day_plan.get("activities", [])` defaults a missing key
to `[]`). -/
structure RawDay where
  day : Int
  date : String
  activities : Option (List Activity)
deriving DecidableEq, Repr

/-- The parsed top-level trip dict; a missing key is `none`. -/
structure RawTrip where
  hotels : Option (List Hotel)
  restaurants : Option (List Restaurant)
  itinerary : Option (List RawDay)
  sources : Option (List String)
deriving DecidableEq, Repr

/-- Python truthiness of the parsed dict: falsy iff it has no keys. -/
def RawTrip.isFalsy (t : RawTrip) : Bool :=
  t.hotels.isNone && t.restaurants.isNone && t.itinerary.isNone && t.sources.isNone

/-! ### Generation client: embedding of `call_gemini_api` (on the
`response_schema`-present path used by the planner).

The HTTP exchange is an oracle: either a raised
`requests.exceptions.RequestException` (transport/HTTP-status failure)
or a decoded response body.  `json.loads` of the model text is a
parameter `parse` (`none` = `json.JSONDecodeError`, or a payload that
is not the expected dict shape). -/

/-- One part of a candidate's content (`{"text": ...}`). -/
structure GPart where
  text : Option String
deriving DecidableEq, Repr

/-- A candidate's `content` (`{"parts": [...]}`). -/
structure GContent where
  parts : Option (List GPart)
deriving DecidableEq, Repr

/-- One element of the response's `candidates` array. -/
structure GCandidate where
  content : Option GContent
deriving DecidableEq, Repr

/-- Outcome of the HTTP call to the Gemini endpoint. -/
inductive GeminiHttp where
  | transportError (details : String)
  | response (candidates : List GCandidate)
deriving DecidableEq, Repr

/-- Embedding of `call_gemini_api` with a `response_schema`:
`.error` is the `{"error": ...}` dict the source returns on each
failure path, `.ok` the parsed JSON payload.  An empty `parts` list
makes `parts[0]` raise `IndexError`, which the blanket
`except Exception` turns into the "unexpected error" result. -/
def call_gemini_api (parse : String → Option RawTrip) (http : GeminiHttp) :
    Except String RawTrip :=
  match http with
  | .transportError details =>
    .error ("Could not retrieve information from AI. Details: " ++ details)
  | .response candidates =>
    match candidates with
    | [] => .error "No content found in the AI response."
    | c :: _ =>
      match (c.content.getD ⟨none⟩).parts.getD [⟨none⟩] with
      | [] => .error "An unexpected error occurred. Details: list index out of range"
      | p :: _ =>
        let text_content := p.text.getD ""
        match parse text_content with
        | some v => .ok v
        | none => .error "Failed to parse JSON response from AI."

/-! ### The trip-planning orchestrator: embedding of
`plan_full_trip_agent`. -/

/-- The two mutually exclusive prompt templates, abstracted to the data
interpolated into the f-strings: the RAG-augmented template carries the
retrieved context, the `", ".join`ed source filenames and the source
list itself; the general-knowledge template carries the destination,
the `", ".join`ed enumerated date list and the preferences. -/
inductive Prompt where
  | contextAugmented (context : String) (formattedSources : String)
      (sources : List String)
  | generalKnowledge (destination : String) (dateList : List String)
      (preferences : String)
deriving DecidableEq, Repr

/-- An I/O step performed by the pipeline, in order. -/
inductive Effect where
  | ragRetrieval (query : String)
  | geminiCall (prompt : Prompt)
deriving DecidableEq, Repr

/-- Result of a pipeline run: a returned plan dict, a returned
`{"error": ...}` dict, or an uncaught Python exception. -/
inductive PlanResult where
  | ok (plan : RawTrip)
  | error (msg : String)
  | fault (msg : String)
deriving DecidableEq, Repr

/-- A run: its result together with the I/O steps it performed. -/
structure PlanRun where
  result : PlanResult
  effects : List Effect
deriving DecidableEq, Repr

/-- Python `lst[:n]` for an `int` bound: non-negative bounds take a
prefix, negative bounds drop `|n|` elements from the end. -/
def pySliceTo (l : List α) (n : Int) : List α :=
  if 0 ≤ n then l.take n.toNat else l.take (l.length - n.natAbs)

/-- Sanitize all `map_link` fields of the parsed plan (hotels,
restaurants, and every itinerary activity), leaving all other fields
untouched — the in-place mutation loops of the source. -/
def sanitizePlan (t : RawTrip) : RawTrip :=
  { t with
    hotels := t.hotels.map (List.map fun h =>
      { h with map_link := h.map_link.map sanitize_map_link }),
    restaurants := t.restaurants.map (List.map fun r =>
      { r with map_link := r.map_link.map sanitize_map_link }),
    itinerary := t.itinerary.map (List.map fun d =>
      { d with activities := d.activities.map (List.map fun a =>
          { a with map_link := a.map_link.map sanitize_map_link }) }) }

/-- The realignment loop: for position `i` (0-indexed) force
`date = date_list[i]` and `day = i+1`.  Indexing past the end of
`date_list` raises `IndexError` (uncaught in the source). -/
def realign (dateList : List String) : Nat → List RawDay →
    Except String (List RawDay)
  | _, [] => .ok []
  | i, d :: rest =>
    match dateList[i]? with
    | some dt =>
      match realign dateList (i + 1) rest with
      | .ok tl => .ok ({ d with date := dt, day := (i : Int) + 1 } :: tl)
      | .error e => .error e
    | none => .error "IndexError: list index out of range"

/-- The error message of the validity gate. -/
def invalidPlanMsg (destination : String) : String :=
  "Could not generate a valid trip plan for " ++ destination ++
    ". The AI may not have information on this location or failed to generate a response."

/-- Embedding of `plan_full_trip_agent`.  External collaborators are
parameters: `db` is the similarity-search oracle (see
`get_context_with_sources`), `parse` the JSON decoder, `http` the
Gemini HTTP outcome.  The returned effect list records the retrieval
and the (single) generation call, in program order. -/
def plan_full_trip_agent (destination from_date to_date preferences : String)
    (db : Option (List (RetrievedDoc × ℚ)))
    (parse : String → Option RawTrip) (http : GeminiHttp) : PlanRun :=
  if destination = "" ∨ from_date = "" ∨ to_date = "" then
    ⟨.error "Please provide destination, from_date, and to_date.", []⟩
  else
    match parseDate from_date, parseDate to_date with
    | some s, some e =>
      let num_days : Int := numDaysOf s e
      let date_list : List String := dateListOf s e
      let rag_query := "Provide a detailed travel itinerary for " ++ destination ++
        " with a focus on " ++ preferences ++ "."
      let ctxSrc := get_context_with_sources db
      let prompt : Prompt :=
        if ctxSrc.1 ≠ "" ∧ ctxSrc.2 ≠ [] then
          .contextAugmented ctxSrc.1 (String.intercalate ", " ctxSrc.2) ctxSrc.2
        else
          .generalKnowledge destination date_list preferences
      let effects : List Effect := [.ragRetrieval rag_query, .geminiCall prompt]
      match call_gemini_api parse http with
      | .error e => ⟨.error e, effects⟩
      | .ok raw =>
        let st := sanitizePlan raw
        if st.isFalsy || (st.itinerary.getD []).isEmpty then
          ⟨.error (invalidPlanMsg destination), effects⟩
        else
          let trimmed := pySliceTo (st.itinerary.getD []) num_days
          match realign date_list 0 trimmed with
          | .ok newIt => ⟨.ok { st with itinerary := some newIt }, effects⟩
          | .error m => ⟨.fault m, effects⟩
    | _, _ => ⟨.error "Invalid date format. Please use YYYY-MM-DD.", []⟩

/-! ### Ingestion and index build: embedding of
`load_documents_from_folder` and `create_vector_store_from_folder`
(`rag_processor.py`).

The filesystem is explicit: `folder` is `none` when the knowledge-base
directory does not exist, otherwise the list of its entries, each with
the outcome of its type-specific loader (`.error` = the loader raised).
The persisted FAISS artifact and the number of performed
document-loading and embedding passes form the state, so that
"no re-embedding" is statable.  The external
`RecursiveCharacterTextSplitter` is a parameter `split`. -/

/-- A loaded document: text plus the `{"source": filename}` metadata
the loader attaches. -/
structure DocRec where
  text : String
  source : String
deriving DecidableEq, Repr

instance {ε α : Type} [DecidableEq ε] [DecidableEq α] :
    DecidableEq (Except ε α) := fun a b =>
  match a, b with
  | .ok x, .ok y =>
    if h : x = y then .isTrue (by rw [h]) else .isFalse (by simp [h])
  | .error x, .error y =>
    if h : x = y then .isTrue (by rw [h]) else .isFalse (by simp [h])
  | .ok _, .error _ => .isFalse (by simp)
  | .error _, .ok _ => .isFalse (by simp)

/-- A directory entry: its filename and the outcome of running its
loader (`.ok` carries the extracted texts, one per emitted document). -/
structure FileEntry where
  name : String
  load : Except String (List String)
deriving DecidableEq, Repr

/-- `filename.split('.')[-1].lower()`. -/
def extOf (filename : String) : String :=
  String.mk (((splitOnChar '.' filename.toList).getLastD []).map Char.toLower)

/-- Embedding of `load_documents_from_folder`: a missing folder yields
`[]`; unsupported extensions are skipped; a loader failure is caught
and the file omitted; each emitted document is tagged with its
filename. -/
def load_documents_from_folder (folder : Option (List FileEntry)) : List DocRec :=
  match folder with
  | none => []
  | some files =>
    files.foldl (fun acc f =>
      let ext := extOf f.name
      if ext = "pdf" ∨ ext = "txt" ∨ ext = "docx" then
        match f.load with
        | .ok texts => acc ++ texts.map (fun t => ⟨t, f.name⟩)
        | .error _ => acc
      else acc) []

/-- The persisted FAISS artifact, abstracted to the chunks it indexes. -/
structure RagIndex where
  chunks : List DocRec
deriving DecidableEq, Repr

/-- Build-time state: the artifact persisted at `store_path` (if any)
and counters of the expensive external passes performed so far. -/
structure RagState where
  store : Option RagIndex
  docLoads : Nat
  embedCalls : Nat
deriving DecidableEq, Repr

/-- Embedding of `create_vector_store_from_folder`: if an artifact
already exists at `store_path` it is loaded and returned as-is (no
document loading, no chunking, no embedding); otherwise documents are
loaded, an empty load returns Python's implicit `None` without touching
the store, and a non-empty load chunks, embeds (`FAISS.from_documents`)
and persists.  `persistOk = false` models the caught exception in the
build-and-save `try` block (logged, `None` returned, nothing saved). -/
def create_vector_store_from_folder (split : List DocRec → List DocRec)
    (persistOk : Bool) (folder : Option (List FileEntry)) (st : RagState) :
    Option RagIndex × RagState :=
  match st.store with
  | some idx => (some idx, st)
  | none =>
    let docs := load_documents_from_folder folder
    let st1 : RagState := { st with docLoads := st.docLoads + 1 }
    if docs.isEmpty then (none, st1)
    else
      let chunked := split docs
      if persistOk then
        let idx : RagIndex := ⟨chunked⟩
        (some idx, { st1 with store := some idx, embedCalls := st1.embedCalls + 1 })
      else
        (none, { st1 with embedCalls := st1.embedCalls + 1 })

/-! ## Helper lemmas -/

/-- Concatenation of a list of strings (recursive form of
`String.join`, convenient for induction). -/
def joinAll : List String → String
  | [] => ""
  | s :: rest => s ++ joinAll rest

/-- The context accumulated by the retrieval fold is the initial
accumulator followed by the texts (plus separators) of exactly the
strictly-above-threshold results, in order. -/
theorem foldl_ragStep_context (results : List (RetrievedDoc × ℚ))
    (c0 : String) (s0 : List String) :
    (results.foldl ragStep (c0, s0)).1 =
      c0 ++ joinAll ((results.filter fun p => p.2 > RELEVANCE_THRESHOLD).map
        fun p => p.1.page_content ++ "\n\n---\n\n") := by
  induction results generalizing c0 s0 with
  | nil => simp [joinAll]
  | cons p rest ih =>
    by_cases h : p.2 > RELEVANCE_THRESHOLD
    · simp only [List.foldl_cons, ragStep, if_pos h, List.filter_cons,
        decide_eq_true_eq, h, if_pos, ih, joinAll, List.map_cons,
        String.append_assoc]
    · simp only [List.foldl_cons, ragStep, if_neg h, List.filter_cons,
        decide_eq_true_eq, h, if_neg, ih, List.map_cons]
      simp [h]

theorem mem_addSource (l : List String) (s x : String) :
    x ∈ addSource l s ↔ x ∈ l ∨ x = s := by
  unfold addSource
  by_cases h : s ∈ l
  · simp only [if_pos h]
    constructor
    · exact fun hx => Or.inl hx
    · rintro (hx | rfl) <;> assumption
  · simp [if_neg h, List.mem_append]

/-- A source filename is in the accumulated source set iff it was
there initially or some strictly-above-threshold result carries it. -/
theorem foldl_ragStep_sources (results : List (RetrievedDoc × ℚ))
    (c0 : String) (s0 : List String) (x : String) :
    x ∈ (results.foldl ragStep (c0, s0)).2 ↔
      x ∈ s0 ∨ ∃ p ∈ results, p.2 > RELEVANCE_THRESHOLD ∧ p.1.source = x := by
  induction results generalizing c0 s0 with
  | nil => simp
  | cons p rest ih =>
    by_cases h : p.2 > RELEVANCE_THRESHOLD
    · simp only [List.foldl_cons, ragStep, if_pos h, ih, mem_addSource,
        List.mem_cons]
      constructor
      · rintro ((hx | rfl) | ⟨q, hq, hq2⟩)
        · exact Or.inl hx
        · exact Or.inr ⟨p, Or.inl rfl, h, rfl⟩
        · exact Or.inr ⟨q, Or.inr hq, hq2⟩
      · rintro (hx | ⟨q, (rfl | hq), hq2, hq3⟩)
        · exact Or.inl (Or.inl hx)
        · exact Or.inl (Or.inr hq3.symm)
        · exact Or.inr ⟨q, hq, hq2, hq3⟩
    · simp only [List.foldl_cons, ragStep, if_neg h, ih, List.mem_cons]
      constructor
      · rintro (hx | ⟨q, hq, hq2⟩)
        · exact Or.inl hx
        · exact Or.inr ⟨q, Or.inr hq, hq2⟩
      · rintro (hx | ⟨q, (rfl | hq), hq2, hq3⟩)
        · exact Or.inl hx
        · exact absurd hq2 h
        · exact Or.inr ⟨q, hq, hq2, hq3⟩

/-! ## Claims -/

/-- **C6**: `sanitize_map_link` maps a value matching the
markdown-link wrapper pattern `[label](URL)` to the extracted bare URL
(capture group 1 of the first match), and leaves any value without
such a wrapper unchanged; in particular
`sanitize("[Text](https://maps.example/x)") = "https://maps.example/x"`
and `sanitize("https://maps.example/x") = "https://maps.example/x"`. -/
theorem C6_sanitize_map_link :
    sanitize_map_link "[Text](https://maps.example/x)" = "https://maps.example/x" ∧
    sanitize_map_link "https://maps.example/x" = "https://maps.example/x" ∧
    (∀ url g, searchMdLink url.toList = some g →
      sanitize_map_link url = String.mk g) ∧
    (∀ url, searchMdLink url.toList = none → sanitize_map_link url = url) := by
  refine ⟨by decide, by decide, ?_, ?_⟩
  · intro url g h
    have h' : searchMdLink url.data = some g := h
    simp [sanitize_map_link, h']
  · intro url h
    have h' : searchMdLink url.data = none := h
    simp [sanitize_map_link, h']

/-- Witness for C6: the pass-through case applied to a concrete
unwrapped value. -/
theorem C6_sanitize_map_link_witness :
    sanitize_map_link "https://maps.google.com/?q=Louvre" =
      "https://maps.google.com/?q=Louvre" :=
  C6_sanitize_map_link.2.2.2 "https://maps.google.com/?q=Louvre" (by decide)

/-- **C5**: in `get_context_with_sources`, a retrieved (chunk, score)
pair contributes its text to the returned context and its source
filename to the returned sources iff its score is strictly greater
than the 0.4 relevance threshold: the context is the concatenation of
exactly the strictly-passing texts (with separators, in order), and a
filename is reported iff some strictly-passing result carries it. -/
theorem C5_relevance_threshold (results : List (RetrievedDoc × ℚ)) :
    (get_context_with_sources (some results)).1 =
      joinAll ((results.filter fun p => p.2 > RELEVANCE_THRESHOLD).map
        fun p => p.1.page_content ++ "\n\n---\n\n") ∧
    (∀ x, x ∈ (get_context_with_sources (some results)).2 ↔
      ∃ p ∈ results, p.2 > RELEVANCE_THRESHOLD ∧ p.1.source = x) := by
  constructor
  · simpa using foldl_ragStep_context results "" []
  · intro x
    simpa using foldl_ragStep_sources results "" [] x

/-- Three retrieval results at the claim's boundary scores. -/
def c5demo : List (RetrievedDoc × ℚ) :=
  [(⟨"t39", "s39"⟩, 39/100), (⟨"t40", "s40"⟩, 40/100),
   (⟨"t41", "included"⟩, 41/100)]

/-- Witness for C5 at the claim's boundary scores: of three results
scored 0.39, 0.40 and 0.41, only the 0.41 one contributes its source
(0.39 and exactly 0.4 are excluded), and only its text reaches the
context. -/
theorem C5_relevance_threshold_witness :
    ("included" ∈ (get_context_with_sources (some c5demo)).2) ∧
    ¬("s39" ∈ (get_context_with_sources (some c5demo)).2) ∧
    ¬("s40" ∈ (get_context_with_sources (some c5demo)).2) ∧
    (get_context_with_sources (some c5demo)).1 = "t41\n\n---\n\n" := by
  refine ⟨?_, ?_, ?_, ?_⟩
  · exact ((C5_relevance_threshold c5demo).2 "included").mpr
      ⟨(⟨"t41", "included"⟩, 41/100), by simp [c5demo],
       by norm_num [RELEVANCE_THRESHOLD], rfl⟩
  · intro h
    rcases ((C5_relevance_threshold c5demo).2 "s39").mp h with ⟨p, hp, hgt, hsrc⟩
    simp only [c5demo, List.mem_cons, List.not_mem_nil, or_false] at hp
    rcases hp with rfl | rfl | rfl
    · norm_num [RELEVANCE_THRESHOLD] at hgt
    · norm_num [RELEVANCE_THRESHOLD] at hgt
    · exact absurd hsrc (by decide)
  · intro h
    rcases ((C5_relevance_threshold c5demo).2 "s40").mp h with ⟨p, hp, hgt, hsrc⟩
    simp only [c5demo, List.mem_cons, List.not_mem_nil, or_false] at hp
    rcases hp with rfl | rfl | rfl
    · norm_num [RELEVANCE_THRESHOLD] at hgt
    · norm_num [RELEVANCE_THRESHOLD] at hgt
    · exact absurd hsrc (by decide)
  · rw [(C5_relevance_threshold c5demo).1]
    have hfil : c5demo.filter (fun p => p.2 > RELEVANCE_THRESHOLD) =
        [(⟨"t41", "included"⟩, 41/100)] := by
      simp only [c5demo, List.filter]
      norm_num [RELEVANCE_THRESHOLD]
    rw [hfil]
    decide

/-- A successfully parsed date string is non-empty. -/
theorem parseDate_ne_empty {fd : String} {s : PyDate}
    (h : parseDate fd = some s) : fd ≠ "" := by
  rintro rfl
  exact Option.noConfusion (show (none : Option PyDate) = some s from h)

/-- Number of generation calls recorded in an effect trace. -/
def geminiCalls (l : List Effect) : Nat :=
  (l.filter fun ef => match ef with
    | .geminiCall _ => true
    | _ => false).length

/-- **C7**: `call_gemini_api` never raises: every HTTP outcome yields
either a parsed payload or an `"error"`-tagged result; a transport
failure, an unparseable payload and a response with no candidates each
produce a tagged error with a human-readable diagnostic, and
`plan_full_trip_agent` propagates that tagged error upward unchanged,
performing exactly one generation call (no retry). -/
theorem C7_gemini_errors_tagged_and_propagated :
    (∀ parse http, (∃ m, call_gemini_api parse http = .error m) ∨
      (∃ v, call_gemini_api parse http = .ok v)) ∧
    (∀ parse details, call_gemini_api parse (.transportError details) =
      .error ("Could not retrieve information from AI. Details: " ++ details)) ∧
    (∀ parse, call_gemini_api parse (.response []) =
      .error "No content found in the AI response.") ∧
    (∀ (parse : String → Option RawTrip) (c : GCandidate) rest p ps,
      (c.content.getD ⟨none⟩).parts.getD [⟨none⟩] = p :: ps →
      parse (p.text.getD "") = none →
      call_gemini_api parse (.response (c :: rest)) =
        .error "Failed to parse JSON response from AI.") ∧
    (∀ destination from_date to_date preferences db parse http m s e,
      destination ≠ "" → parseDate from_date = some s →
      parseDate to_date = some e →
      call_gemini_api parse http = .error m →
      (plan_full_trip_agent destination from_date to_date preferences
          db parse http).result = .error m ∧
      geminiCalls (plan_full_trip_agent destination from_date to_date
          preferences db parse http).effects = 1) := by
  refine ⟨?_, ?_, ?_, ?_, ?_⟩
  · intro parse http
    rcases h : call_gemini_api parse http with m | v
    · exact Or.inl ⟨m, rfl⟩
    · exact Or.inr ⟨v, rfl⟩
  · intro parse details
    rfl
  · intro parse
    rfl
  · intro parse c rest p ps hparts hparse
    simp [call_gemini_api, hparts, hparse]
  · intro destination from_date to_date preferences db parse http m s e
      hdest hs he hcall
    have hfd := parseDate_ne_empty hs
    have htd := parseDate_ne_empty he
    unfold plan_full_trip_agent
    rw [if_neg (by simp [hdest, hfd, htd]), hs, he]
    simp only [hcall]
    exact ⟨trivial, by simp [geminiCalls]⟩

/-- Witness for C7: a concrete transport failure is propagated by the
pipeline as the same tagged error, with exactly one generation call. -/
theorem C7_gemini_errors_witness :
    (plan_full_trip_agent "Paris" "2025-01-01" "2025-01-03" "" none
        (fun _ => some ⟨none, none, none, none⟩)
        (.transportError "connection refused")).result =
      .error "Could not retrieve information from AI. Details: connection refused" ∧
    geminiCalls (plan_full_trip_agent "Paris" "2025-01-01" "2025-01-03" "" none
        (fun _ => some ⟨none, none, none, none⟩)
        (.transportError "connection refused")).effects = 1 :=
  C7_gemini_errors_tagged_and_propagated.2.2.2.2 "Paris" "2025-01-01"
    "2025-01-03" "" none (fun _ => some ⟨none, none, none, none⟩)
    (.transportError "connection refused")
    "Could not retrieve information from AI. Details: connection refused"
    ⟨2025, 1, 1⟩ ⟨2025, 1, 3⟩ (by decide) (by decide) (by decide)
    (C7_gemini_errors_tagged_and_propagated.2.1
      (fun _ => some ⟨none, none, none, none⟩) "connection refused")

/-- **C8**: if a persisted index already exists at the store path,
`create_vector_store_from_folder` returns it loaded from disk with the
state untouched (no document loading, no chunking, no embedding); and
building twice against the same path performs the embedding
computation only once, the second call returning the index persisted
by the first and leaving it unchanged. -/
theorem C8_build_idempotent :
    (∀ split persistOk folder st idx, st.store = some idx →
      create_vector_store_from_folder split persistOk folder st = (some idx, st)) ∧
    (∀ split folder st, st.store = none →
      load_documents_from_folder folder ≠ [] →
      (create_vector_store_from_folder split true folder
          (create_vector_store_from_folder split true folder st).2) =
        ((create_vector_store_from_folder split true folder st).1,
         (create_vector_store_from_folder split true folder st).2) ∧
      (create_vector_store_from_folder split true folder st).2.embedCalls =
        st.embedCalls + 1 ∧
      (create_vector_store_from_folder split true folder st).1 =
        (create_vector_store_from_folder split true folder st).2.store) := by
  constructor
  · intro split persistOk folder st idx h
    unfold create_vector_store_from_folder
    rw [h]
  · intro split folder st h0 hdocs
    have hne : (load_documents_from_folder folder).isEmpty = false := by
      simpa [List.isEmpty_iff] using hdocs
    unfold create_vector_store_from_folder
    rw [h0]
    simp [hne]

/-- Witness for C8: one text file builds an index; rebuilding against
the now-persisted path is the identity on state and returns the same
index, with exactly one embedding pass overall. -/
theorem C8_build_idempotent_witness :
    (create_vector_store_from_folder id true
        (some [⟨"kyoto.txt", .ok ["Kyoto guide"]⟩])
        (create_vector_store_from_folder id true
          (some [⟨"kyoto.txt", .ok ["Kyoto guide"]⟩]) ⟨none, 0, 0⟩).2) =
      ((create_vector_store_from_folder id true
          (some [⟨"kyoto.txt", .ok ["Kyoto guide"]⟩]) ⟨none, 0, 0⟩).1,
       (create_vector_store_from_folder id true
          (some [⟨"kyoto.txt", .ok ["Kyoto guide"]⟩]) ⟨none, 0, 0⟩).2) ∧
    (create_vector_store_from_folder id true
        (some [⟨"kyoto.txt", .ok ["Kyoto guide"]⟩]) ⟨none, 0, 0⟩).2.embedCalls =
      0 + 1 ∧
    (create_vector_store_from_folder id true
        (some [⟨"kyoto.txt", .ok ["Kyoto guide"]⟩]) ⟨none, 0, 0⟩).1 =
      (create_vector_store_from_folder id true
        (some [⟨"kyoto.txt", .ok ["Kyoto guide"]⟩]) ⟨none, 0, 0⟩).2.store :=
  C8_build_idempotent.2 id (some [⟨"kyoto.txt", .ok ["Kyoto guide"]⟩])
    ⟨none, 0, 0⟩ rfl (by decide)

/-- **C9**: when no documents are loaded from the source folder,
`create_vector_store_from_folder` returns Python's explicit `None`
failure marker (not a crash), and no index is created or persisted:
the store stays empty and no embedding is performed. -/
theorem C9_empty_docs_no_index :
    ∀ split persistOk folder st, st.store = none →
      load_documents_from_folder folder = [] →
      create_vector_store_from_folder split persistOk folder st =
        (none, { st with docLoads := st.docLoads + 1 }) ∧
      (create_vector_store_from_folder split persistOk folder st).2.store = none ∧
      (create_vector_store_from_folder split persistOk folder st).2.embedCalls =
        st.embedCalls := by
  intro split persistOk folder st h0 hdocs
  unfold create_vector_store_from_folder
  rw [h0]
  simp [hdocs]

/-- Witness for C9: an existing but empty knowledge-base folder. -/
theorem C9_empty_docs_no_index_witness :
    create_vector_store_from_folder id true (some []) ⟨none, 0, 0⟩ =
      (none, ⟨none, 1, 0⟩) ∧
    (create_vector_store_from_folder id true (some []) ⟨none, 0, 0⟩).2.store = none ∧
    (create_vector_store_from_folder id true (some []) ⟨none, 0, 0⟩).2.embedCalls = 0 :=
  C9_empty_docs_no_index id true (some []) ⟨none, 0, 0⟩ rfl rfl

/-- The date list has `(num_days).toNat` entries. -/
theorem dateListOf_length (s e : PyDate) :
    (dateListOf s e).length = (numDaysOf s e).toNat := by
  simp [dateListOf]

/-- The `i`-th entry of the date list is the formatted `i`-th
successor of the start date. -/
theorem dateListOf_get (s e : PyDate) (i : Nat)
    (h : i < (numDaysOf s e).toNat) :
    (dateListOf s e)[i]? = some (strftimeBdY (addDays s i)) := by
  simp [dateListOf, List.getElem?_map, List.getElem?_range, h]

/-- A valid (non-inverted) range has at least one day. -/
theorem numDaysOf_pos (s e : PyDate) (h : toOrdinal s ≤ toOrdinal e) :
    1 ≤ numDaysOf s e := by
  unfold numDaysOf
  omega

/-- When the date list is long enough, the realignment loop succeeds
and produces one output day per input day, with `day` forced to the
1-based position, `date` forced to the corresponding date-list entry,
and the `activities` field passed through. -/
theorem realign_ok (dateList : List String) (l : List RawDay) (i : Nat)
    (h : i + l.length ≤ dateList.length) :
    ∃ out, realign dateList i l = .ok out ∧ out.length = l.length ∧
      ∀ j d, out[j]? = some d → ∃ d0, l[j]? = some d0 ∧
        d.day = ((i + j : Nat) : Int) + 1 ∧ dateList[i + j]? = some d.date ∧
        d.activities = d0.activities := by
  induction l generalizing i with
  | nil =>
    refine ⟨[], rfl, rfl, ?_⟩
    intro j d hj
    simp at hj
  | cons d rest ih =>
    have hi : i < dateList.length := by
      simp only [List.length_cons] at h
      omega
    have hdt : dateList[i]? = some dateList[i] := List.getElem?_eq_getElem hi
    obtain ⟨tl, htl, hlen, hprop⟩ := ih (i + 1) (by
      simp only [List.length_cons] at h
      omega)
    refine ⟨{ d with date := dateList[i], day := (i : Int) + 1 } :: tl, ?_, ?_, ?_⟩
    · unfold realign
      rw [hdt, htl]
    · simp [hlen]
    · intro j x hj
      match j with
      | 0 =>
        simp only [List.getElem?_cons_zero, Option.some.injEq] at hj
        subst hj
        exact ⟨d, by simp, by simp, by simp [hdt], rfl⟩
      | j + 1 =>
        simp only [List.getElem?_cons_succ] at hj
        obtain ⟨d0, hd0, hday, hdate, hact⟩ := hprop j x hj
        refine ⟨d0, by simpa using hd0, ?_, ?_, hact⟩
        · rw [hday]
          congr 1
          omega
        · convert hdate using 2
          omega

/-- Under a non-empty destination and well-formed dates, the pipeline
performs exactly the retrieval step and one generation call, the
prompt being the RAG-augmented template exactly when retrieval
produced non-empty context and sources, and the general-knowledge
template (with the enumerated date list) otherwise. -/
theorem plan_effects_eq (destination from_date to_date preferences : String)
    (db : Option (List (RetrievedDoc × ℚ)))
    (parse : String → Option RawTrip) (http : GeminiHttp) (s e : PyDate)
    (hdest : destination ≠ "") (hs : parseDate from_date = some s)
    (he : parseDate to_date = some e) :
    (plan_full_trip_agent destination from_date to_date preferences
        db parse http).effects =
      [.ragRetrieval ("Provide a detailed travel itinerary for " ++ destination ++
          " with a focus on " ++ preferences ++ "."),
       .geminiCall (if (get_context_with_sources db).1 ≠ "" ∧
            (get_context_with_sources db).2 ≠ [] then
          .contextAugmented (get_context_with_sources db).1
            (String.intercalate ", " (get_context_with_sources db).2)
            (get_context_with_sources db).2
        else
          .generalKnowledge destination (dateListOf s e) preferences)] := by
  have hfd := parseDate_ne_empty hs
  have htd := parseDate_ne_empty he
  unfold plan_full_trip_agent
  rw [if_neg (by simp [hdest, hfd, htd]), hs, he]
  rcases hc : call_gemini_api parse http with m | raw
  · rfl
  · dsimp only
    split
    · rfl
    · rcases hr : realign (dateListOf s e) 0
        (pySliceTo ((sanitizePlan raw).itinerary.getD []) (numDaysOf s e)) with m' | newIt
      · simp [hr]
      · simp [hr]

/-- **C4**: for well-formed inputs the pipeline performs exactly one
generation call, whose prompt is one of the two mutually exclusive
templates, chosen solely by whether retrieval yielded non-empty
context AND non-empty sources: the RAG-augmented template carries
exactly the retrieved source filenames; the general-knowledge
template (also used when the index is unavailable, i.e. `db = none`)
carries a date list of length `numDays` whose `i`-th entry is
`fromDate + i` days, formatted. -/
theorem C4_prompt_branch_selection :
    ∀ destination from_date to_date preferences db parse http s e,
      destination ≠ "" → parseDate from_date = some s →
      parseDate to_date = some e → toOrdinal s ≤ toOrdinal e →
      ((get_context_with_sources db).1 ≠ "" ∧
          (get_context_with_sources db).2 ≠ [] →
        (plan_full_trip_agent destination from_date to_date preferences
            db parse http).effects =
          [.ragRetrieval ("Provide a detailed travel itinerary for " ++
              destination ++ " with a focus on " ++ preferences ++ "."),
           .geminiCall (.contextAugmented (get_context_with_sources db).1
              (String.intercalate ", " (get_context_with_sources db).2)
              (get_context_with_sources db).2)]) ∧
      (¬((get_context_with_sources db).1 ≠ "" ∧
          (get_context_with_sources db).2 ≠ []) →
        (plan_full_trip_agent destination from_date to_date preferences
            db parse http).effects =
          [.ragRetrieval ("Provide a detailed travel itinerary for " ++
              destination ++ " with a focus on " ++ preferences ++ "."),
           .geminiCall (.generalKnowledge destination (dateListOf s e)
              preferences)]) ∧
      (db = none → get_context_with_sources db = ("", [])) ∧
      ((dateListOf s e).length : Int) = numDaysOf s e ∧
      (∀ i, i < (dateListOf s e).length →
        (dateListOf s e)[i]? = some (strftimeBdY (addDays s i))) := by
  intro destination from_date to_date preferences db parse http s e
    hdest hs he hord
  have heff := plan_effects_eq destination from_date to_date preferences
    db parse http s e hdest hs he
  refine ⟨?_, ?_, ?_, ?_, ?_⟩
  · intro hbr
    rw [heff, if_pos hbr]
  · intro hbr
    rw [heff, if_neg hbr]
  · rintro rfl
    rfl
  · rw [dateListOf_length]
    exact Int.toNat_of_nonneg (by linarith [numDaysOf_pos s e hord])
  · intro i hi
    rw [dateListOf_length] at hi
    exact dateListOf_get s e i hi

/-- Witness for C4: with the index unavailable, the end-to-end
scenario of the spec selects the general-knowledge prompt whose date
list matches the six-day Kyoto range. -/
theorem C4_prompt_branch_selection_witness :
    (plan_full_trip_agent "Kyoto, Japan" "2025-10-10" "2025-10-15"
        "historical" none (fun _ => none) (.response [])).effects =
      [.ragRetrieval ("Provide a detailed travel itinerary for " ++
          "Kyoto, Japan" ++ " with a focus on " ++ "historical" ++ "."),
       .geminiCall (.generalKnowledge "Kyoto, Japan"
          (dateListOf ⟨2025, 10, 10⟩ ⟨2025, 10, 15⟩) "historical")] ∧
    ((dateListOf ⟨2025, 10, 10⟩ ⟨2025, 10, 15⟩).length : Int) =
      numDaysOf ⟨2025, 10, 10⟩ ⟨2025, 10, 15⟩ := by
  have h := C4_prompt_branch_selection "Kyoto, Japan" "2025-10-10"
    "2025-10-15" "historical" none (fun _ => none) (.response [])
    ⟨2025, 10, 10⟩ ⟨2025, 10, 15⟩ (by decide) (by decide) (by decide)
    (by decide)
  exact ⟨h.2.1 (by decide), h.2.2.2.1⟩

/-- **C3**: if the generated response is empty or its itinerary field
is absent or empty, the pipeline returns the domain error naming the
destination (the exact gate message, distinct from the transport/parse
diagnostics of the generation client) and raises no unhandled fault. -/
theorem C3_validity_gate :
    ∀ destination from_date to_date preferences db parse http s e raw,
      destination ≠ "" → parseDate from_date = some s →
      parseDate to_date = some e →
      call_gemini_api parse http = .ok raw →
      raw.itinerary.getD [] = [] →
      (plan_full_trip_agent destination from_date to_date preferences
          db parse http).result = .error (invalidPlanMsg destination) ∧
      (∃ post, invalidPlanMsg destination =
        "Could not generate a valid trip plan for " ++ (destination ++ post)) := by
  intro destination from_date to_date preferences db parse http s e raw
    hdest hs he hcall hitin
  have hfd := parseDate_ne_empty hs
  have htd := parseDate_ne_empty he
  constructor
  · have hemp : ((sanitizePlan raw).itinerary.getD []).isEmpty = true := by
      cases hraw : raw.itinerary with
      | none => simp [sanitizePlan, hraw]
      | some l =>
        rw [hraw] at hitin
        simp only [Option.getD_some] at hitin
        simp [sanitizePlan, hraw, hitin]
    unfold plan_full_trip_agent
    rw [if_neg (by simp [hdest, hfd, htd]), hs, he]
    simp only [hcall]
    simp [hemp]
  · exact ⟨". The AI may not have information on this location or failed to generate a response.",
      by simp [invalidPlanMsg, String.append_assoc]⟩

/-- Witness for C3: a parsed payload with no itinerary key yields the
domain error for the concrete destination. -/
theorem C3_validity_gate_witness :
    (plan_full_trip_agent "Atlantis" "2025-01-01" "2025-01-02" "" none
        (fun _ => some ⟨none, none, none, none⟩)
        (.response [⟨some ⟨some [⟨some "{}"⟩]⟩⟩])).result =
      .error (invalidPlanMsg "Atlantis") ∧
    (∃ post, invalidPlanMsg "Atlantis" =
      "Could not generate a valid trip plan for " ++ ("Atlantis" ++ post)) :=
  C3_validity_gate "Atlantis" "2025-01-01" "2025-01-02" "" none
    (fun _ => some ⟨none, none, none, none⟩)
    (.response [⟨some ⟨some [⟨some "{}"⟩]⟩⟩])
    ⟨2025, 1, 1⟩ ⟨2025, 1, 2⟩ ⟨none, none, none, none⟩
    (by decide) (by decide) (by decide) rfl rfl

/-- On the success path (valid inputs, parsed payload, non-empty
itinerary, realignment succeeded) the pipeline returns the sanitized
plan with the realigned itinerary substituted in. -/
theorem plan_success_result (destination from_date to_date preferences : String)
    (db : Option (List (RetrievedDoc × ℚ)))
    (parse : String → Option RawTrip) (http : GeminiHttp) (s e : PyDate)
    (raw : RawTrip) (its : List RawDay) (newIt : List RawDay)
    (hdest : destination ≠ "") (hs : parseDate from_date = some s)
    (he : parseDate to_date = some e)
    (hcall : call_gemini_api parse http = .ok raw)
    (hits : raw.itinerary = some its) (hne : its ≠ [])
    (hreal : realign (dateListOf s e) 0
      (pySliceTo ((sanitizePlan raw).itinerary.getD []) (numDaysOf s e)) =
      .ok newIt) :
    (plan_full_trip_agent destination from_date to_date preferences
        db parse http).result =
      .ok { sanitizePlan raw with itinerary := some newIt } := by
  have hfd := parseDate_ne_empty hs
  have htd := parseDate_ne_empty he
  obtain ⟨d0, rest, rfl⟩ := List.exists_cons_of_ne_nil hne
  have hsan : (sanitizePlan raw).itinerary =
      some ((d0 :: rest).map fun d =>
        { d with activities := d.activities.map (List.map fun a =>
            { a with map_link := a.map_link.map sanitize_map_link }) }) := by
    simp [sanitizePlan, hits]
  unfold plan_full_trip_agent
  rw [if_neg (by simp [hdest, hfd, htd]), hs, he]
  simp only [hcall]
  rw [if_neg (by simp [RawTrip.isFalsy, hsan])]
  simp only [hreal]

/-- **C1 (amended)**: for every valid date range and gate-passing
response, the finalized itinerary is the model's itinerary truncated
to the first `numDays` entries — its length is
`min len(raw.itinerary) numDays`, equal to `numDays` whenever the
model returned at least `numDays` entries (truncation, never padding)
— and for every position `i`, entry `i` has `day = i+1` and
`date = dateList[i]`, regardless of what the model returned there. -/
theorem C1_realignment_amended :
    ∀ destination from_date to_date preferences db parse http s e raw its,
      destination ≠ "" → parseDate from_date = some s →
      parseDate to_date = some e → toOrdinal s ≤ toOrdinal e →
      call_gemini_api parse http = .ok raw →
      raw.itinerary = some its → its ≠ [] →
      ∃ p, (plan_full_trip_agent destination from_date to_date preferences
          db parse http).result = .ok p ∧
        ∃ fin, p.itinerary = some fin ∧
          fin.length = min its.length (numDaysOf s e).toNat ∧
          ((numDaysOf s e).toNat ≤ its.length →
            (fin.length : Int) = numDaysOf s e) ∧
          ∀ (i : Nat) (d : RawDay), fin[i]? = some d → d.day = (i : Int) + 1 ∧
            (dateListOf s e)[i]? = some d.date := by
  intro destination from_date to_date preferences db parse http s e raw its
    hdest hs he hord hcall hits hne
  have hpos := numDaysOf_pos s e hord
  have hnn : 0 ≤ numDaysOf s e := by linarith
  set n : Nat := (numDaysOf s e).toNat with hn
  have hsanIt : (sanitizePlan raw).itinerary.getD [] =
      its.map fun d =>
        { d with activities := d.activities.map (List.map fun a =>
            { a with map_link := a.map_link.map sanitize_map_link }) } := by
    simp [sanitizePlan, hits]
  have htrim : pySliceTo ((sanitizePlan raw).itinerary.getD [])
      (numDaysOf s e) =
      ((sanitizePlan raw).itinerary.getD []).take n := by
    rw [pySliceTo, if_pos hnn]
  have htlen : (((sanitizePlan raw).itinerary.getD []).take n).length =
      min n its.length := by
    rw [List.length_take, hsanIt, List.length_map]
  obtain ⟨out, hreal, hlen, hprop⟩ := realign_ok (dateListOf s e)
    (((sanitizePlan raw).itinerary.getD []).take n) 0
    (by rw [dateListOf_length, htlen, ← hn]; omega)
  refine ⟨_, plan_success_result destination from_date to_date preferences
    db parse http s e raw its out hdest hs he hcall hits hne
    (by rw [htrim]; exact hreal), ?_⟩
  refine ⟨out, rfl, ?_, ?_, ?_⟩
  · rw [hlen, htlen, Nat.min_comm]
  · intro hge
    rw [hlen, htlen]
    have : min n its.length = n := by omega
    rw [this, hn]
    exact Int.toNat_of_nonneg hnn
  · intro i d hi
    obtain ⟨d0', _, hday, hdate, _⟩ := hprop i d hi
    exact ⟨by simpa using hday, by simpa using hdate⟩

/-- Witness for C1 (amended): the Kyoto scenario with an eight-entry
model itinerary and a six-day range: the finalized itinerary has
exactly six entries. -/
theorem C1_realignment_amended_witness :
    ∃ p, (plan_full_trip_agent "Kyoto, Japan" "2025-10-10" "2025-10-15"
        "" none
        (fun _ => some ⟨none, none,
          some ((List.range 8).map fun i => ⟨(i : Int), "model-date", none⟩),
          none⟩)
        (.response [⟨some ⟨some [⟨some "payload"⟩]⟩⟩])).result = .ok p ∧
      ∃ fin, p.itinerary = some fin ∧
        fin.length = min ((List.range 8).map fun i =>
          (⟨(i : Int), "model-date", none⟩ : RawDay)).length
          (numDaysOf ⟨2025, 10, 10⟩ ⟨2025, 10, 15⟩).toNat ∧
        ((numDaysOf ⟨2025, 10, 10⟩ ⟨2025, 10, 15⟩).toNat ≤
            ((List.range 8).map fun i =>
              (⟨(i : Int), "model-date", none⟩ : RawDay)).length →
          (fin.length : Int) = numDaysOf ⟨2025, 10, 10⟩ ⟨2025, 10, 15⟩) ∧
        ∀ (i : Nat) (d : RawDay), fin[i]? = some d → d.day = (i : Int) + 1 ∧
          (dateListOf ⟨2025, 10, 10⟩ ⟨2025, 10, 15⟩)[i]? = some d.date :=
  C1_realignment_amended "Kyoto, Japan" "2025-10-10" "2025-10-15" "" none
    (fun _ => some ⟨none, none,
      some ((List.range 8).map fun i => ⟨(i : Int), "model-date", none⟩),
      none⟩)
    (.response [⟨some ⟨some [⟨some "payload"⟩]⟩⟩])
    ⟨2025, 10, 10⟩ ⟨2025, 10, 15⟩ _ _
    (by decide) (by decide) (by decide) (by decide) rfl rfl (by decide)

/-- Counterexample for C1 as stated: a valid two-day range and a
gate-passing response with a single itinerary entry produce a
finalized itinerary of length 1, not `numDays = 2` — the code
truncates but never pads. -/
theorem C1_realignment_counterexample :
    parseDate "2025-01-01" = some ⟨2025, 1, 1⟩ ∧
    parseDate "2025-01-02" = some ⟨2025, 1, 2⟩ ∧
    numDaysOf ⟨2025, 1, 1⟩ ⟨2025, 1, 2⟩ = 2 ∧
    (⟨none, none, some [⟨9, "model-date", none⟩], none⟩ : RawTrip).itinerary.getD []
      ≠ [] ∧
    (plan_full_trip_agent "Paris" "2025-01-01" "2025-01-02" "" none
        (fun _ => some ⟨none, none, some [⟨9, "model-date", none⟩], none⟩)
        (.response [⟨some ⟨some [⟨some "payload"⟩]⟩⟩])).result =
      .ok ⟨none, none, some [⟨1, "Jan 01, 2025", none⟩], none⟩ ∧
    (([(⟨1, "Jan 01, 2025", none⟩ : RawDay)].length : Int) ≠
      numDaysOf ⟨2025, 1, 1⟩ ⟨2025, 1, 2⟩) := by
  decide

/-- **C2 (code-bug evidence)**: malformed dates are indeed rejected
before any I/O with the explicit invalid-date error, but an inverted
range (`fromDate > toDate`) is NOT validated: both dates parse, the
computed `numDays` is non-positive, retrieval and generation are
performed anyway, and with a gate-passing eight-entry model itinerary
the realignment loop indexes the empty date list and raises an
uncaught `IndexError` instead of returning any tagged error. -/
theorem C2_inverted_range_not_rejected :
    (plan_full_trip_agent "Kyoto" "2025/10/15" "2025-10-10" "" none
        (fun _ => some ⟨none, none,
          some ((List.range 8).map fun i => ⟨(i : Int), "model-date", none⟩),
          none⟩)
        (.response [⟨some ⟨some [⟨some "payload"⟩]⟩⟩])) =
      ⟨.error "Invalid date format. Please use YYYY-MM-DD.", []⟩ ∧
    parseDate "2025-10-15" = some ⟨2025, 10, 15⟩ ∧
    parseDate "2025-10-10" = some ⟨2025, 10, 10⟩ ∧
    numDaysOf ⟨2025, 10, 15⟩ ⟨2025, 10, 10⟩ = -4 ∧
    (plan_full_trip_agent "Kyoto" "2025-10-15" "2025-10-10" "" none
        (fun _ => some ⟨none, none,
          some ((List.range 8).map fun i => ⟨(i : Int), "model-date", none⟩),
          none⟩)
        (.response [⟨some ⟨some [⟨some "payload"⟩]⟩⟩])) =
      ⟨.fault "IndexError: list index out of range",
       [.ragRetrieval "Provide a detailed travel itinerary for Kyoto with a focus on .",
        .geminiCall (.generalKnowledge "Kyoto" [] "")]⟩ := by
  decide

/-- **C10**: on a successful run, everything other than the sanitized
`map_link` fields and the forced `day`/`date` fields is returned
verbatim from the parsed model payload, apart from truncation of the
itinerary to the first `numDays` entries: the `sources` list, hotel
names/descriptions/price ranges, restaurant
names/cuisines/recommendation reasons, and each surviving day's
activity times/names/descriptions are passed through unchanged. -/
theorem C10_passthrough_frame :
    ∀ destination from_date to_date preferences db parse http s e raw its,
      destination ≠ "" → parseDate from_date = some s →
      parseDate to_date = some e → toOrdinal s ≤ toOrdinal e →
      call_gemini_api parse http = .ok raw →
      raw.itinerary = some its → its ≠ [] →
      ∃ p, (plan_full_trip_agent destination from_date to_date preferences
          db parse http).result = .ok p ∧
        p.sources = raw.sources ∧
        p.hotels.map (List.map fun h => (h.name, h.description, h.price_range)) =
          raw.hotels.map (List.map fun h => (h.name, h.description, h.price_range)) ∧
        p.restaurants.map (List.map fun r =>
            (r.name, r.cuisine, r.recommendation_reason)) =
          raw.restaurants.map (List.map fun r =>
            (r.name, r.cuisine, r.recommendation_reason)) ∧
        ∃ fin, p.itinerary = some fin ∧
          fin.length = min its.length (numDaysOf s e).toNat ∧
          ∀ (i : Nat) (d : RawDay), fin[i]? = some d →
            ∃ d0, its[i]? = some d0 ∧
              d.activities.map (List.map fun a => (a.time, a.name, a.description)) =
                d0.activities.map (List.map fun a =>
                  (a.time, a.name, a.description)) := by
  intro destination from_date to_date preferences db parse http s e raw its
    hdest hs he hord hcall hits hne
  have hpos := numDaysOf_pos s e hord
  have hnn : 0 ≤ numDaysOf s e := by linarith
  set n : Nat := (numDaysOf s e).toNat with hn
  have hsanIt : (sanitizePlan raw).itinerary.getD [] =
      its.map fun d =>
        { d with activities := d.activities.map (List.map fun a =>
            { a with map_link := a.map_link.map sanitize_map_link }) } := by
    simp [sanitizePlan, hits]
  have htrim : pySliceTo ((sanitizePlan raw).itinerary.getD [])
      (numDaysOf s e) =
      ((sanitizePlan raw).itinerary.getD []).take n := by
    rw [pySliceTo, if_pos hnn]
  have htlen : (((sanitizePlan raw).itinerary.getD []).take n).length =
      min n its.length := by
    rw [List.length_take, hsanIt, List.length_map]
  obtain ⟨out, hreal, hlen, hprop⟩ := realign_ok (dateListOf s e)
    (((sanitizePlan raw).itinerary.getD []).take n) 0
    (by rw [dateListOf_length, htlen, ← hn]; omega)
  refine ⟨_, plan_success_result destination from_date to_date preferences
    db parse http s e raw its out hdest hs he hcall hits hne
    (by rw [htrim]; exact hreal), ?_, ?_, ?_, ?_⟩
  · rfl
  · cases hh : raw.hotels with
    | none => simp [sanitizePlan, hh]
    | some l =>
      simp only [sanitizePlan, hh, Option.map_some', List.map_map]
      rfl
  · cases hh : raw.restaurants with
    | none => simp [sanitizePlan, hh]
    | some l =>
      simp only [sanitizePlan, hh, Option.map_some', List.map_map]
      rfl
  · refine ⟨out, rfl, by rw [hlen, htlen, Nat.min_comm], ?_⟩
    intro i d hi
    have hilt : i < out.length := by
      rcases List.getElem?_eq_some.mp hi with ⟨h, _⟩
      exact h
    have hio : i < n ⊓ its.length := by
      rw [← htlen, ← hlen]
      exact hilt
    have hin : i < n := lt_of_lt_of_le hio (Nat.min_le_left _ _)
    have hii : i < its.length := lt_of_lt_of_le hio (Nat.min_le_right _ _)
    obtain ⟨d0', hd0', _, _, hact⟩ := hprop i d hi
    rw [List.getElem?_take, if_pos hin, hsanIt, List.getElem?_map,
      List.getElem?_eq_getElem hii] at hd0'
    simp only [Option.map_some', Option.some.injEq] at hd0'
    refine ⟨its[i], List.getElem?_eq_getElem hii, ?_⟩
    rw [hact, ← hd0']
    cases its[i].activities with
    | none => rfl
    | some acts =>
      simp only [Option.map_some', List.map_map]
      rfl

/-- Witness for C10: a payload carrying a hotel, a restaurant, a
two-activity day and a source survives the pipeline with every
non-link, non-day/date field intact. -/
theorem C10_passthrough_frame_witness :
    ∃ p, (plan_full_trip_agent "Paris" "2025-01-01" "2025-01-01" "" none
        (fun _ => some ⟨some [⟨"H", "hd", "$$", some "[h](https://m/h)"⟩],
          some [⟨"R", "french", "good", none⟩],
          some [⟨7, "bogus", some [⟨some "09:00", "Louvre", "art", none⟩]⟩],
          some ["guide.txt"]⟩)
        (.response [⟨some ⟨some [⟨some "payload"⟩]⟩⟩])).result = .ok p ∧
      p.sources = (⟨some [⟨"H", "hd", "$$", some "[h](https://m/h)"⟩],
          some [⟨"R", "french", "good", none⟩],
          some [⟨7, "bogus", some [⟨some "09:00", "Louvre", "art", none⟩]⟩],
          some ["guide.txt"]⟩ : RawTrip).sources ∧
      p.hotels.map (List.map fun h => (h.name, h.description, h.price_range)) =
        (⟨some [⟨"H", "hd", "$$", some "[h](https://m/h)"⟩],
          some [⟨"R", "french", "good", none⟩],
          some [⟨7, "bogus", some [⟨some "09:00", "Louvre", "art", none⟩]⟩],
          some ["guide.txt"]⟩ : RawTrip).hotels.map
          (List.map fun h => (h.name, h.description, h.price_range)) ∧
      p.restaurants.map (List.map fun r =>
          (r.name, r.cuisine, r.recommendation_reason)) =
        (⟨some [⟨"H", "hd", "$$", some "[h](https://m/h)"⟩],
          some [⟨"R", "french", "good", none⟩],
          some [⟨7, "bogus", some [⟨some "09:00", "Louvre", "art", none⟩]⟩],
          some ["guide.txt"]⟩ : RawTrip).restaurants.map
          (List.map fun r => (r.name, r.cuisine, r.recommendation_reason)) ∧
      ∃ fin, p.itinerary = some fin ∧
        fin.length = min [(⟨7, "bogus",
          some [⟨some "09:00", "Louvre", "art", none⟩]⟩ : RawDay)].length
          (numDaysOf ⟨2025, 1, 1⟩ ⟨2025, 1, 1⟩).toNat ∧
        ∀ (i : Nat) (d : RawDay), fin[i]? = some d →
          ∃ d0, [(⟨7, "bogus",
              some [⟨some "09:00", "Louvre", "art", none⟩]⟩ : RawDay)][i]? =
              some d0 ∧
            d.activities.map (List.map fun a => (a.time, a.name, a.description)) =
              d0.activities.map (List.map fun a =>
                (a.time, a.name, a.description)) :=
  C10_passthrough_frame "Paris" "2025-01-01" "2025-01-01" "" none
    (fun _ => some ⟨some [⟨"H", "hd", "$$", some "[h](https://m/h)"⟩],
      some [⟨"R", "french", "good", none⟩],
      some [⟨7, "bogus", some [⟨some "09:00", "Louvre", "art", none⟩]⟩],
      some ["guide.txt"]⟩)
    (.response [⟨some ⟨some [⟨some "payload"⟩]⟩⟩])
    ⟨2025, 1, 1⟩ ⟨2025, 1, 1⟩ _ _
    (by decide) (by decide) (by decide) (by decide) rfl rfl (by decide)

end TripPlanner
